import Mathlib

/-!
Verification development for the build_rawdata repository.

Shallow embedding of the pieces of the codebase that the checked
properties concern:

* `build_rawdata/resources/bidsify.py` — `BidsifyNii.update_fmap`
  (fieldmap/BOLD-run association) and `BidsifyNii._switch_name`
  (raw-name to BIDS-name resolution);
* `build_rawdata/resources/unique_cases.py` — `fmap_issue` (override
  table matching) and `wash_issue` (wash offset-marker patch);
* `build_rawdata/resources/behavior.py` — `_EventsData.get_info`
  (events extraction), `_EventsData._judge_resp`, and `rest_ratings`;
* `build_rawdata/resources/emorep.py` — `ProcessPhys.make_physio`
  (exception handling around the physio conversion block).

Conventions: pandas/python missing values (NaN from `read_csv`) are
modelled as `Option.none`; cell values of the output tables are the
inductive `Cell` (missing, string, or rational number); timestamps are
rationals, with `round(x, 2)` modelled as exact half-even rounding at
two decimals; python exceptions are modelled with `Except`.
-/

deriving instance DecidableEq for Except

namespace BuildRawdata

/-- A value held in a pandas cell: missing (NaN), a string, or a number. -/
inductive Cell where
  | na : Cell
  | s : String → Cell
  | q : ℚ → Cell
deriving DecidableEq, Repr

/-- Missing source value becomes a NaN cell, present value a string cell. -/
def cellOfOpt : Option String → Cell
  | none => Cell.na
  | some v => Cell.s v

/-! ### String containment (python `needle in hay`) -/

/-- Whether the first character list occurs at the head of the second. -/
def chLead : List Char → List Char → Bool
  | [], _ => true
  | _ :: _, [] => false
  | a :: as, b :: bs => a == b && chLead as bs

/-- Whether the first character list occurs contiguously in the second. -/
def chSub (n : List Char) : List Char → Bool
  | [] => chLead n []
  | b :: bs => chLead n (b :: bs) || chSub n bs

/-- Python substring test: the string on the left occurs in the right. -/
def hasSub (needle hay : String) : Bool :=
  chSub needle.toList hay.toList

/-- The test at bidsify.py:160, python code: "task-rest" in y. -/
def hasTaskRest (y : String) : Bool :=
  hasSub "task-rest" y

/-! ### BidsifyNii.update_fmap (bidsify.py lines 114-167)

The fieldmap-count dispatch and the fmap-count-2 partition.  The
filesystem reads and JSON writes are performed by the caller; the
embedding keeps the decision logic: validation of the fieldmap count,
deferral to the override table (`fmap_issue`, passed here as an
`Option` of the override result), moving the first resting-state run
to the end of the BOLD list, and the split of the list between the two
fieldmaps. -/

/-- bidsify.py lines 160-162, python code:
rest_idx = [x for x, y in enumerate(bold_list) if "task-rest" in y]
if rest_idx: bold_list.append(bold_list.pop(rest_idx[0]))
— the element at the first index whose name contains "task-rest" is
removed from its position and appended at the end. -/
def moveRestToEnd : List String → List String
  | [] => []
  | y :: ys => if hasTaskRest y then ys ++ [y] else y :: moveRestToEnd ys

/-- The IntendedFor partition computed by `update_fmap` (bidsify.py
lines 126-167): `fmapCount` is the number of fmap sidecars found,
`override` the result of `unique_cases.fmap_issue` (`none` when no
override entry applies).  Errors model the `ValueError`s raised. -/
def update_fmap_assoc (fmapCount : Nat) (bold_list : List String)
    (override : Option (List (List String))) :
    Except String (List (List String)) :=
  if fmapCount = 0 then
    Except.error "No BIDS-organized fmap files found, try BidsifyNii.bids_nii"
  else if fmapCount > 2 then
    Except.error "More than 2 fmap images found!"
  else if fmapCount = 1 then
    Except.ok [bold_list]
  else
    match override with
    | some map_bold_fmap => Except.ok map_bold_fmap
    | none =>
        let b := moveRestToEnd bold_list
        Except.ok [b.take 4, b.drop 4]

/-- Modelled from the spec: the partition described by the spec's words
"splits the (now reordered) list into two contiguous halves — first
half to fieldmap 1, remainder to fieldmap 2", for comparison with the
source's `update_fmap_assoc`. -/
def update_fmap_assoc_spec_halves (bold_list : List String) :
    List (List String) :=
  let b := moveRestToEnd bold_list
  [b.take (b.length / 2), b.drop (b.length / 2)]

/-! ### unique_cases.fmap_issue (unique_cases.py lines 80-151)

The core of the override path: for each ordered key of the override
entry (a string such as "movies_2"), the key is split on the
underscore into task and run, the BOLD list is filtered for names
containing "task-<task>_run-<run>", and the sub-list is built from the
unique matches.  Python raises `ValueError` when a key matches more
than one name (lines 145-149); a key that matches nothing falls
through both branches and is silently skipped. -/

/-- python `s.split(c)` for a one-character separator, over character
lists (structurally recursive so that it evaluates by kernel
reduction; `String.splitOn` agrees on these inputs). -/
def splitOnChar (c : Char) : List Char → List (List Char)
  | [] => [[]]
  | x :: xs =>
    let r := splitOnChar c xs
    if x == c then [] :: r
    else
      match r with
      | h :: t => (x :: h) :: t
      | [] => [[x]]

/-- python `s.split("_")`. -/
def pySplitUnder (s : String) : List String :=
  (splitOnChar '_' s.toList).map String.mk

/-- python `task, run = bold_key.split("_")`: succeeds only when
splitting on the underscore yields exactly two parts, otherwise the
tuple unpacking raises `ValueError`. -/
def split2 (bold_key : String) : Option (String × String) :=
  match pySplitUnder bold_key with
  | [task, run] => some (task, run)
  | _ => none

/-- unique_cases.py lines 140-142: the BOLD names matching one key. -/
def boldMatches (task run : String) (bold_list : List String) : List String :=
  bold_list.filter (fun x => hasSub ("task-" ++ task ++ "_run-" ++ run) x)

/-- unique_cases.py lines 137-150: build one fieldmap's sub-list from
the override entry's ordered key list (python `for bold_key in
map_list`, appending the unique match, raising on multiple matches,
and doing nothing on zero matches). -/
def fmapMatchList : List String → List String → Except String (List String)
  | [], _ => Except.ok []
  | bold_key :: rest, bold_list =>
    match split2 bold_key with
    | none => Except.error "ValueError: unpacking bold_key.split"
    | some (task, run) =>
      match boldMatches task run bold_list with
      | [b] =>
          match fmapMatchList rest bold_list with
          | Except.ok l => Except.ok (b :: l)
          | Except.error e => Except.error e
      | [] => fmapMatchList rest bold_list
      | _ =>
          Except.error
            ("Too many fmap-bold matches, check task and run values: "
              ++ bold_key)

/-- The BOLD names one override key selects: split the key and filter
the BOLD list (the empty list for a malformed key, which
`fmapMatchList` rejects before filtering). -/
def keyMatches (bold_key : String) (bold_list : List String) : List String :=
  match split2 bold_key with
  | some (t, r) => boldMatches t r bold_list
  | none => []

/-! ### unique_cases.wash_issue (unique_cases.py lines 16-77)

Trial-type mappings are python dicts from trial-type name to the
two-element [onset-marker, offset-marker] list; they are modelled as
association lists in insertion order.  `dictSet` is python dict
assignment: it replaces the value at an existing key in place, and
appends a new key at the end.  The source mutates the dict it
received and returns that same object. -/

/-- Python dict assignment `d[k] = v` on an insertion-ordered dict. -/
def dictSet (d : List (String × List String)) (k : String) (v : List String) :
    List (String × List String) :=
  if d.any (fun p => p.1 == k) then
    d.map (fun p => if p.1 == k then (k, v) else p)
  else
    d ++ [(k, v)]

/-- unique_cases.py line 45: subjects who only need ses-day2 patched. -/
def half_issue : List String := ["ER0046", "ER0074", "ER0075"]

/-- unique_cases.py lines 48-64: all subjects who need a patch. -/
def issue_list : List String :=
  ["ER0009", "ER0016", "ER0024", "ER0036", "ER0041", "ER0046", "ER0052",
   "ER0057", "ER0060", "ER0071", "ER0072", "ER0074", "ER0075", "ER0093",
   "ER0103"]

/-- unique_cases.py lines 71-74: the task-keyed replacement values for
the wash entry (python dict `wash_update`). -/
def wash_update : List (String × List String) :=
  [("task-movies", ["WashStimOnset", "movieblockEnd"]),
   ("task-scenarios", ["WashStimOnset", "textblockEnd"])]

/-- unique_cases.py lines 16-77, `wash_issue`: returns `trial_types`
unchanged for half-issue subjects in ses-day3, otherwise replaces the
wash entry for subjects in the issue list (`trial_types["wash"] =
wash_update[task]`, an in-place mutation of the dict received, which
is then returned).  The error case models the `KeyError` from
`wash_update[task]` on an unknown task string. -/
def wash_issue (trial_types : List (String × List String))
    (task sess subid : String) :
    Except String (List (String × List String)) :=
  if sess = "ses-day3" ∧ subid ∈ half_issue then
    Except.ok trial_types
  else if subid ∈ issue_list then
    match wash_update.lookup task with
    | some v => Except.ok (dictSet trial_types "wash" v)
    | none => Except.error ("KeyError: " ++ task)
  else
    Except.ok trial_types

/-- The state of the caller's `trial_types` dict after `wash_issue`
returns or raises: the source performs its update by assigning into
the dict it received (unique_cases.py line 76) and returns that same
object, so on normal return the caller's dict equals the returned
mapping; when `wash_update[task]` raises, the assignment never
happened and the dict is unchanged. -/
def wash_issue_post (trial_types : List (String × List String))
    (task sess subid : String) : List (String × List String) :=
  match wash_issue trial_types task sess subid with
  | Except.ok m => m
  | Except.error _ => trial_types

/-! ### BidsifyNii._switch_name (bidsify.py lines 182-208)

The naming table is a python dict built from interpolated strings and
indexed by the raw dcm2niix name; a name matching no key raises
`KeyError` (a `LookupError` subclass), and the call site in
`bids_nii` (lines 76-78) has no exception handler, so the error
propagates out of the per-file loop. -/

/-- A python exception as relevant here. `KeyError` and `IndexError`
are the subclasses of `LookupError`. -/
inductive PyErr where
  | keyError : String → PyErr
  | indexError : String → PyErr
  | valueError : String → PyErr
deriving DecidableEq, Repr

/-- Python `isinstance(e, LookupError)`. -/
def PyErr.isLookupError : PyErr → Bool
  | PyErr.keyError _ => true
  | PyErr.indexError _ => true
  | PyErr.valueError _ => false

/-- python `f"{run}"` where `run` defaults to `None`. -/
def runStr : Option String → String
  | none => "None"
  | some r => r

/-- bidsify.py lines 187-207: the `name_dict` switch table, in source
order, keyed by dcm2niix name. -/
def switchTable (subj sess task : String) (run : Option String) :
    List (String × (String × String)) :=
  let base_str := subj ++ "_" ++ sess
  let r := runStr run
  [("DICOM_EmoRep_anat", ("anat", base_str ++ "_T1w")),
   ("DICOM_EmoRep_run" ++ r,
     ("func", base_str ++ "_" ++ task ++ "_run-" ++ r ++ "_bold")),
   ("DICOM_Rest_run" ++ r,
     ("func", base_str ++ "_task-rest_run-" ++ r ++ "_bold")),
   ("DICOM_Field_Map_P_A", ("fmap", base_str ++ "_acq-rpe_dir-PA_epi")),
   ("DICOM_Field_Map_P_A_run1",
     ("fmap", base_str ++ "_acq-rpe_dir-PA_run-" ++ r ++ "_epi")),
   ("DICOM_Field_Map_P_A_run_2",
     ("fmap", base_str ++ "_acq-rpe_dir-PA_run-" ++ r ++ "_epi"))]

/-- bidsify.py line 208, `return name_dict[dcm2niix_name]`: dict
indexing returns the value at the key or raises `KeyError`. -/
def switch_name (subj sess task : String) (run : Option String)
    (dcm2niix_name : String) : Except PyErr (String × String) :=
  match (switchTable subj sess task run).lookup dcm2niix_name with
  | some v => Except.ok v
  | none => Except.error (PyErr.keyError dcm2niix_name)

/-- bidsify.py lines 76-91: the per-file body of the `bids_nii` loop
after run extraction — `_switch_name` is called with no surrounding
handler and its result is used to build the destination path, so any
exception it raises propagates out of `bids_nii`. -/
def bidsNiiRename (subj sess task : String) (run : Option String)
    (dcm2niix_name file_ext : String) : Except PyErr String :=
  match switch_name subj sess task run dcm2niix_name with
  | Except.ok (bids_dir, bids_name) =>
      Except.ok (bids_dir ++ "/" ++ bids_name ++ file_ext)
  | Except.error e => Except.error e

/-! ### behavior.py — events extraction

A row of the raw task CSV (`self._df_run` after `pd.read_csv` with
`na_values=["None", "none"]`): the `type` column (marker type), the
`timefromstart` column (seconds), and the `stimdescrip`/`stimtype`
columns, whose cells may be missing (empty CSV fields and the listed
na_values become NaN, modelled as `none`). -/
structure RunRow where
  rtype : String
  timefromstart : ℚ
  stimdescrip : Option String
  stimtype : Option String
deriving DecidableEq, Repr

/-- A row of the output events table (`df_events` columns, behavior.py
lines 55-64). -/
structure TrialRecord where
  onset : ℚ
  duration : ℚ
  trial_type : String
  stim_info : Cell
  response : Cell
  response_time : Cell
  accuracy : Cell
  emotion : Cell
deriving DecidableEq, Repr

/-- Round half to even on integers: the tie-breaking rule of python's
builtin `round`. -/
def roundHalfEven (x : ℚ) : ℤ :=
  let f := ⌊x⌋
  let r := x - (f : ℚ)
  if r < 1 / 2 then f
  else if 1 / 2 < r then f + 1
  else if f % 2 = 0 then f else f + 1

/-- python `round(x, 2)`, modelled exactly over the rationals. -/
def round2 (x : ℚ) : ℚ :=
  (roundHalfEven (x * 100) : ℚ) / 100

/-- Numeric value of a digit list (most significant first). -/
def natOfDigits (l : List Char) : ℕ :=
  l.foldl (fun a c => 10 * a + (c.toNat - 48)) 0

/-- python `float(x)` on a string, for the plain decimal literals the
task logs contain (optional minus sign, digits, optional fractional
part); other floating-literal forms are out of scope of the logs. -/
def parseDec (str : String) : Option ℚ :=
  let (sgn, body) : ℚ × List Char :=
    match str.toList with
    | '-' :: rest => (-1, rest)
    | l => (1, l)
  match splitOnChar '.' body with
  | [ip] =>
      if ip.length > 0 && ip.all Char.isDigit then
        some (sgn * (natOfDigits ip : ℚ))
      else none
  | [ip, fp] =>
      if (ip.length + fp.length > 0) && ip.all Char.isDigit
          && fp.all Char.isDigit then
        some (sgn * ((natOfDigits ip : ℚ)
          + (natOfDigits fp : ℚ) / (10 ^ fp.length : ℚ)))
      else none
  | _ => none

/-- behavior.py lines 70-77: the `stim_switch` table of `_stim_info`. -/
def stimSwitch : List (String × String) :=
  [("fixS", "fixation_cross"), ("fix", "fixation_cross"),
   ("replay", "prompt_replay"), ("judge", "prompt_in_out"),
   ("emotion", "select_emotion"), ("intensity", "select_intensity")]

/-- python `x.split("_")[0]`. -/
def headSplit (v : String) : String :=
  match pySplitUnder v with
  | h :: _ => h
  | [] => ""

/-- behavior.py lines 67-95, `_EventsData._stim_info`: stimulus info
and emotion columns for one trial type.  For movie/scenario the
emotion is `x.split("_")[0]` of each stimulus cell; a NaN cell there
raises (python `AttributeError`, floats have no `split`). -/
def stimInfoFn (onsetRows : List RunRow) (event_name : String) :
    Except String (List Cell × List Cell) :=
  let h_stim_info : List Cell :=
    match stimSwitch.lookup event_name with
    | some v => List.replicate onsetRows.length (Cell.s v)
    | none =>
        if event_name ∈ ["movie", "scenario", "wash"] then
          onsetRows.map (fun r => cellOfOpt r.stimdescrip)
        else
          List.replicate onsetRows.length (Cell.s "n/a")
  if event_name ∈ ["movie", "scenario"] then
    match h_stim_info.mapM (fun c =>
        match c with
        | Cell.s v => some (Cell.s (headSplit v))
        | _ => none) with
    | some h_stim_emo => Except.ok (h_stim_info, h_stim_emo)
    | none => Except.error "AttributeError: no attribute split"
  else
    Except.ok (h_stim_info, List.replicate h_stim_info.length (Cell.s "n/a"))

/-- The rows whose `type` is "JudgeResponse" (behavior.py lines
104-106). -/
def judgeRows (df_run : List RunRow) : List RunRow :=
  df_run.filter (fun r => r.rtype == "JudgeResponse")

/-- behavior.py lines 110-116: the decode loop of `_judge_resp` over
the `stimtype` cells of the JudgeResponse rows — NaN propagates to
both outputs, otherwise response is `h[:1]` and accuracy `h[1:]`. -/
def judgeDecode : List (Option String) → List Cell × List Cell
  | [] => ([], [])
  | h :: t =>
      let (rs, accs) := judgeDecode t
      match h with
      | none => (Cell.na :: rs, Cell.na :: accs)
      | some v =>
          (Cell.s (String.mk (v.toList.take 1)) :: rs,
            Cell.s (String.mk (v.toList.drop 1)) :: accs)

/-- behavior.py lines 97-118, `_EventsData._judge_resp` (the response
and accuracy lists; the index list is implicit in `judgeRows`). -/
def judge_resp (df_run : List RunRow) : List Cell × List Cell :=
  judgeDecode ((judgeRows df_run).map (fun r => r.stimtype))

/-- behavior.py lines 120-146, `_EventsData._resp_time`: response and
response-time columns.  `event_onset` is the already-rounded onset
list (see `get_info`).  For judge trials the reaction time is
`round(float(x), 2)` of the JudgeResponse row's `stimdescrip`: a NaN
cell stays NaN (python `float(nan)` is `nan`), an unparseable string
raises `ValueError`. -/
def respTimeFn (df_run : List RunRow) (event_name : String)
    (event_onset : List ℚ) (onsetRows offsetRows : List RunRow) :
    Except String (List Cell × List Cell) :=
  if event_name ∈ ["emotion", "intensity"] then
    let h_resp := offsetRows.map (fun r => cellOfOpt r.stimdescrip)
    let h_resp_time :=
      ((offsetRows.map (fun r => r.timefromstart)).zip event_onset).map
        (fun p => Cell.q (round2 (p.1 - p.2)))
    Except.ok (h_resp, h_resp_time)
  else if event_name == "judge" then
    let jud_resp := (judge_resp df_run).1
    match (judgeRows df_run).mapM (fun r =>
        match r.stimdescrip with
        | none => some Cell.na
        | some v => (parseDec v).map (fun x => Cell.q (round2 x))) with
    | some h_resp_time => Except.ok (jud_resp, h_resp_time)
    | none => Except.error "ValueError: could not convert string to float"
  else
    Except.ok (List.replicate onsetRows.length (Cell.s "n/a"),
      List.replicate onsetRows.length (Cell.s "n/a"))

/-- behavior.py lines 204-214: building `df_event` from the computed
columns.  pandas raises `ValueError` when the columns do not share one
length; otherwise the i-th record takes the i-th entry of each
column. -/
def mkRecords (onset dur : List ℚ) (ttype : List String)
    (stim resp rtime acc emo : List Cell) :
    Except String (List TrialRecord) :=
  let n := onset.length
  if dur.length = n ∧ ttype.length = n ∧ stim.length = n ∧ resp.length = n
      ∧ rtime.length = n ∧ acc.length = n ∧ emo.length = n then
    Except.ok ((List.range n).map (fun i =>
      { onset := onset.getD i 0
        duration := dur.getD i 0
        trial_type := ttype.getD i ""
        stim_info := stim.getD i Cell.na
        response := resp.getD i Cell.na
        response_time := rtime.getD i Cell.na
        accuracy := acc.getD i Cell.na
        emotion := emo.getD i Cell.na }))
  else
    Except.error "All arrays must be of the same length"

/-- Ordering of trial records by onset, the sort key of
`df_events.sort_values(by=["onset"])`. -/
def recLe (a b : TrialRecord) : Prop :=
  a.onset ≤ b.onset

instance : DecidableRel recLe :=
  fun a b => inferInstanceAs (Decidable (a.onset ≤ b.onset))

instance : IsTotal TrialRecord recLe :=
  ⟨fun a b => le_total a.onset b.onset⟩

instance : IsTrans TrialRecord recLe :=
  ⟨fun _ _ _ h1 h2 => le_trans h1 h2⟩

/-- behavior.py lines 148-222, `_EventsData.get_info`: extract one
trial type's records from the run log `df_run`, append them to the
accumulated `df_events`, sort the whole table by onset, and reset the
index (in the list model the index is positional, so `reset_index`
leaves the sorted list).  `sort_values` is modelled as a sort by the
onset column. -/
def get_info (df_run : List RunRow) (df_events : List TrialRecord)
    (event_name event_on event_off : String) :
    Except String (List TrialRecord) :=
  let onsetRows := df_run.filter (fun r => r.rtype == event_on)
  let offsetRows := df_run.filter (fun r => r.rtype == event_off)
  let event_onset_raw := onsetRows.map (fun r => r.timefromstart)
  let event_offset_raw := offsetRows.map (fun r => r.timefromstart)
  let event_duration :=
    (event_onset_raw.zip event_offset_raw).map (fun p => round2 (p.2 - p.1))
  let event_onset := event_onset_raw.map round2
  let event_trial_type := List.replicate onsetRows.length event_name
  match stimInfoFn onsetRows event_name with
  | Except.error e => Except.error e
  | Except.ok (event_stim_info, event_stim_emo) =>
    match respTimeFn df_run event_name event_onset onsetRows offsetRows with
    | Except.error e => Except.error e
    | Except.ok (event_response, event_response_time) =>
      let event_accuracy :=
        if event_name == "judge" then (judge_resp df_run).2
        else List.replicate onsetRows.length (Cell.s "n/a")
      match mkRecords event_onset event_duration event_trial_type
          event_stim_info event_response event_response_time
          event_accuracy event_stim_emo with
      | Except.error e => Except.error e
      | Except.ok df_event =>
          Except.ok (List.insertionSort recLe (df_events ++ df_event))

/-! ### behavior.py — rest_ratings (lines 371-419) -/

/-- A row of the rest-ratings output table. -/
structure RestRow where
  prompt : Option String
  resp_int : String
  resp_alpha : String
deriving DecidableEq, Repr

/-- behavior.py lines 401-407: the `rate_map` table. -/
def rate_map : List (String × String) :=
  [("1", "Not At All"), ("2", "Slightly"), ("3", "Moderately"),
   ("4", "Very"), ("88", "NR")]

/-- Ordering of rest rows by prompt, the sort key of
`df_out.sort_values(by=["prompt"])`; pandas places NaN last. -/
def promptLe (a b : RestRow) : Prop :=
  match a.prompt, b.prompt with
  | none, none => True
  | none, some _ => False
  | some _, none => True
  | some x, some y => x ≤ y

instance : DecidableRel promptLe := fun a b =>
  match a, b with
  | ⟨none, _, _⟩, ⟨none, _, _⟩ => Decidable.isTrue trivial
  | ⟨none, _, _⟩, ⟨some _, _, _⟩ => Decidable.isFalse (fun h => h)
  | ⟨some _, _, _⟩, ⟨none, _, _⟩ => Decidable.isTrue trivial
  | ⟨some x, _, _⟩, ⟨some y, _, _⟩ =>
      inferInstanceAs (Decidable (x ≤ y))

instance : IsTotal RestRow promptLe :=
  ⟨fun a b =>
    match a, b with
    | ⟨none, _, _⟩, ⟨none, _, _⟩ => Or.inl trivial
    | ⟨none, _, _⟩, ⟨some _, _, _⟩ => Or.inr trivial
    | ⟨some _, _, _⟩, ⟨none, _, _⟩ => Or.inl trivial
    | ⟨some x, _, _⟩, ⟨some y, _, _⟩ => le_total x y⟩

instance : IsTrans RestRow promptLe :=
  ⟨fun a b c hab hbc =>
    match a, b, c, hab, hbc with
    | ⟨none, _, _⟩, ⟨none, _, _⟩, ⟨none, _, _⟩, _, _ => trivial
    | ⟨none, _, _⟩, ⟨none, _, _⟩, ⟨some _, _, _⟩, _, h => h
    | ⟨some _, _, _⟩, _, ⟨none, _, _⟩, _, _ => trivial
    | ⟨some _, _, _⟩, ⟨none, _, _⟩, ⟨some _, _, _⟩, _, h => absurd h id
    | ⟨some _, _, _⟩, ⟨some _, _, _⟩, ⟨some _, _, _⟩, h1, h2 =>
        le_trans h1 h2⟩

/-- behavior.py line 396: `rate_stim`, the `stimdescrip` cells of the
RatingOnset rows. -/
def restStim (df_rate : List RunRow) : List (Option String) :=
  (df_rate.filter (fun r => r.rtype == "RatingOnset")).map
    (fun r => r.stimdescrip)

/-- behavior.py line 397: the `stimtype` cells of the RatingResponse
rows (`rate_resp` before the missing-value replacement). -/
def restRespRaw (df_rate : List RunRow) : List (Option String) :=
  (df_rate.filter (fun r => r.rtype == "RatingResponse")).map
    (fun r => r.stimtype)

/-- behavior.py line 398, python: "88" if x != x else x — the NaN
check replaces a missing response with "88". -/
def restResp (df_rate : List RunRow) : List String :=
  (restRespRaw df_rate).map (fun x =>
    match x with
    | none => "88"
    | some v => v)

/-- behavior.py lines 392-418, `rest_ratings` (the dataframe part; the
TSV write is a side effect of the caller's path):
stimuli are the `stimdescrip` cells of RatingOnset rows, responses the
`stimtype` cells of RatingResponse rows; a missing response becomes
"88"; responses are relabelled through `rate_map` (python
`rate_map[x]`, raising `KeyError` on an unexpected response); the
table pairs the columns (pandas raises `ValueError` on unequal
lengths) and is sorted by prompt. -/
def rest_ratings (df_rate : List RunRow) : Except String (List RestRow) :=
  let rate_stim := restStim df_rate
  let rate_resp := restResp df_rate
  match rate_resp.mapM (fun x => rate_map.lookup x) with
  | none => Except.error "KeyError: rate_map"
  | some rate_alpha =>
      if rate_stim.length = rate_resp.length then
        Except.ok (List.insertionSort promptLe
          ((List.range rate_stim.length).map (fun i =>
            { prompt := rate_stim.getD i none
              resp_int := rate_resp.getD i ""
              resp_alpha := rate_alpha.getD i "" })))
      else
        Except.error "All arrays must be of the same length"

/-! ### emorep.py — ProcessPhys.make_physio (lines 540-561)

The conversion block at lines 547-561 runs, in order: the acq decode
(`nk.read_acqknowledge`), the TSV write (`to_csv`), the copy
(`shutil.copy`), and the rename (`os.rename`), inside a single `try`
whose handler is a bare `except:` returning `None` (the file is
skipped).  The embedding takes the outcome of each step as an
argument and produces the function's return value: the destination
path on success, `none` (skip) when any step raises. -/
def physioTryBlock (decode writeTxt copyStep renameStep : Except String Unit)
    (dest_acq : String) : Option String :=
  match decode with
  | Except.error _ => none
  | Except.ok _ =>
    match writeTxt with
    | Except.error _ => none
    | Except.ok _ =>
      match copyStep with
      | Except.error _ => none
      | Except.ok _ =>
        match renameStep with
        | Except.error _ => none
        | Except.ok _ => some dest_acq

/-! ## Helper lemmas -/

theorem moveRestToEnd_perm (l : List String) : (moveRestToEnd l).Perm l := by
  induction l with
  | nil => simp [moveRestToEnd]
  | cons y ys ih =>
    by_cases h : hasTaskRest y = true
    · simp only [moveRestToEnd, h, if_true]
      exact @List.perm_append_comm _ ys [y]
    · simpa [moveRestToEnd, h] using ih.cons y

theorem moveRestToEnd_no_rest (l : List String)
    (h : ∀ x ∈ l, hasTaskRest x = false) : moveRestToEnd l = l := by
  induction l with
  | nil => rfl
  | cons y ys ih =>
    have hy := h y (List.mem_cons_self y ys)
    simp only [moveRestToEnd, hy, Bool.false_eq_true, if_false]
    exact congrArg (y :: ·) (ih (fun x hx => h x (List.mem_cons_of_mem y hx)))

theorem moveRestToEnd_first_rest (l1 l2 : List String) (r : String)
    (hl1 : ∀ x ∈ l1, hasTaskRest x = false) (hr : hasTaskRest r = true) :
    moveRestToEnd (l1 ++ r :: l2) = l1 ++ (l2 ++ [r]) := by
  induction l1 with
  | nil => simp [moveRestToEnd, hr]
  | cons y ys ih =>
    have hy := hl1 y (List.mem_cons_self y ys)
    simp only [List.cons_append, moveRestToEnd, hy, Bool.false_eq_true,
      if_false]
    exact congrArg (y :: ·)
      (ih (fun x hx => hl1 x (List.mem_cons_of_mem y hx)))

/-! ## Claims -/

/-- C2.  With two fieldmaps and no override entry, the two IntendedFor
sub-lists computed by `update_fmap` concatenate to a permutation of
the input BOLD list, so the total element count is preserved and every
BOLD run is assigned to exactly one fieldmap (multiset-exactly: each
file occurs in the two sub-lists together exactly as often as in the
input). -/
theorem update_fmap_two_partition (bold_list : List String) :
    ∃ p1 p2, update_fmap_assoc 2 bold_list none = Except.ok [p1, p2]
      ∧ (p1 ++ p2).Perm bold_list
      ∧ (p1 ++ p2).length = bold_list.length := by
  refine ⟨(moveRestToEnd bold_list).take 4, (moveRestToEnd bold_list).drop 4,
    rfl, ?_, ?_⟩
  · rw [List.take_append_drop]
    exact moveRestToEnd_perm bold_list
  · rw [List.take_append_drop]
    exact (moveRestToEnd_perm bold_list).length_eq

/-- C1 counterexample.  On a six-run session with no resting-state run
and no override, the code does not split the list into two halves
(3 and 3): it assigns the first four runs to fieldmap 1 and the
remaining two to fieldmap 2. -/
theorem update_fmap_not_spec_halves :
    update_fmap_assoc 2 ["f1", "f2", "f3", "f4", "f5", "f6"] none
      ≠ Except.ok
        (update_fmap_assoc_spec_halves ["f1", "f2", "f3", "f4", "f5", "f6"]) := by
  decide

/-- C1 amended.  With two fieldmaps and no override entry, `update_fmap`
moves the first resting-state run (if any) to the end of the BOLD list
and then assigns the first FOUR elements of the reordered list to
fieldmap 1 and the remainder to fieldmap 2 — a fixed split at index 4,
not a split into halves. -/
theorem update_fmap_split_at_four (l1 l2 : List String) (r : String)
    (hl1 : ∀ x ∈ l1, hasTaskRest x = false) (hr : hasTaskRest r = true) :
    update_fmap_assoc 2 (l1 ++ r :: l2) none
        = Except.ok [(l1 ++ (l2 ++ [r])).take 4, (l1 ++ (l2 ++ [r])).drop 4]
      ∧ update_fmap_assoc 2 l1 none
        = Except.ok [l1.take 4, l1.drop 4] := by
  constructor
  · show Except.ok [(moveRestToEnd (l1 ++ r :: l2)).take 4,
      (moveRestToEnd (l1 ++ r :: l2)).drop 4] = _
    rw [moveRestToEnd_first_rest l1 l2 r hl1 hr]
  · show Except.ok [(moveRestToEnd l1).take 4, (moveRestToEnd l1).drop 4] = _
    rw [moveRestToEnd_no_rest l1 hl1]

/-- C1 witness: a five-run session plus one resting run is split as
first four / remainder after the resting run is moved to the end, and
the same five runs without any resting run are split first four /
remainder directly. -/
theorem update_fmap_split_at_four_witness :
    update_fmap_assoc 2
        (["b1", "b2", "b3", "b4", "b5"] ++ "s_task-rest_bold" :: []) none
        = Except.ok
          [(["b1", "b2", "b3", "b4", "b5"] ++ ([] ++ ["s_task-rest_bold"])).take 4,
            (["b1", "b2", "b3", "b4", "b5"] ++ ([] ++ ["s_task-rest_bold"])).drop 4]
      ∧ update_fmap_assoc 2 ["b1", "b2", "b3", "b4", "b5"] none
        = Except.ok [["b1", "b2", "b3", "b4", "b5"].take 4,
            ["b1", "b2", "b3", "b4", "b5"].drop 4] :=
  update_fmap_split_at_four ["b1", "b2", "b3", "b4", "b5"] []
    "s_task-rest_bold" (by decide) (by decide)

/-- C3 counterexample.  An override key that matches ZERO filenames in
the BOLD list does not raise `ValueError`: the matching loop of
`fmap_issue` silently skips it and returns successfully (here, an
empty sub-list). -/
theorem fmapMatchList_zero_match_ok :
    fmapMatchList ["movies_01"] ["s_task-movies_run-02_bold.nii.gz"]
      = Except.ok [] := by
  decide

/-- C3 amended.  For override keys of well-formed task_run shape, the
matching loop of `fmap_issue` succeeds exactly when no key matches
more than one filename — a key with multiple matches raises
`ValueError`, while a key with zero matches is silently omitted from
the sub-list — and on success the sub-list pairs each key, in order,
with its unique match. -/
theorem fmapMatchList_spec (keys bold_list : List String)
    (hk : ∀ k ∈ keys, (split2 k).isSome = true) :
    ((fmapMatchList keys bold_list).isOk = true ↔
        ∀ k ∈ keys, (keyMatches k bold_list).length ≤ 1)
    ∧ ((∀ k ∈ keys, (keyMatches k bold_list).length ≤ 1) →
        fmapMatchList keys bold_list
          = Except.ok
            (keys.filterMap (fun k => (keyMatches k bold_list).head?))) := by
  induction keys with
  | nil =>
    exact ⟨by simp [fmapMatchList, Except.isOk, Except.toBool], fun _ => rfl⟩
  | cons k rest ih =>
    obtain ⟨⟨t, r⟩, hts⟩ :=
      Option.isSome_iff_exists.mp (hk k (List.mem_cons_self k rest))
    have ihr := ih (fun x hx => hk x (List.mem_cons_of_mem k hx))
    have hkm : keyMatches k bold_list = boldMatches t r bold_list := by
      simp [keyMatches, hts]
    cases hm : boldMatches t r bold_list with
    | nil =>
      have hstep : fmapMatchList (k :: rest) bold_list
          = fmapMatchList rest bold_list := by
        simp only [fmapMatchList, hts, hm]
      constructor
      · rw [hstep, ihr.1]
        constructor
        · intro h x hx
          rcases List.mem_cons.mp hx with hxk | hxr
          · subst hxk; simp [hkm, hm]
          · exact h x hxr
        · intro h x hx
          exact h x (List.mem_cons_of_mem k hx)
      · intro h
        rw [hstep, List.filterMap_cons]
        simp only [hkm, hm, List.head?]
        exact ihr.2 (fun x hx => h x (List.mem_cons_of_mem k hx))
    | cons b bs =>
      cases bs with
      | nil =>
        have hstep : fmapMatchList (k :: rest) bold_list
            = match fmapMatchList rest bold_list with
              | Except.ok l => Except.ok (b :: l)
              | Except.error e => Except.error e := by
          simp only [fmapMatchList, hts, hm]
        constructor
        · rw [hstep]
          constructor
          · intro h x hx
            rcases List.mem_cons.mp hx with hxk | hxr
            · subst hxk; simp [hkm, hm]
            · refine (ihr.1.mp ?_) x hxr
              cases hrec : fmapMatchList rest bold_list with
              | ok l => simp [Except.isOk, Except.toBool]
              | error e => rw [hrec] at h; simp [Except.isOk, Except.toBool] at h
          · intro h
            rw [ihr.2 (fun x hx => h x (List.mem_cons_of_mem k hx))]
            simp [Except.isOk, Except.toBool]
        · intro h
          rw [hstep, ihr.2 (fun x hx => h x (List.mem_cons_of_mem k hx)),
            List.filterMap_cons]
          simp [hkm, hm, List.head?]
      | cons b2 bs2 =>
        have hstep : fmapMatchList (k :: rest) bold_list
            = Except.error
              ("Too many fmap-bold matches, check task and run values: "
                ++ k) := by
          simp only [fmapMatchList, hts, hm]
        have hlong : ¬(keyMatches k bold_list).length ≤ 1 := by
          simp [hkm, hm]
        constructor
        · rw [hstep]
          constructor
          · intro h; simp [Except.isOk, Except.toBool] at h
          · intro h
            exact absurd (h k (List.mem_cons_self k rest)) hlong
        · intro h
          exact absurd (h k (List.mem_cons_self k rest)) hlong

/-- C3 witness: two well-formed keys each matching exactly one BOLD
file resolve, in key order, to their unique matches. -/
theorem fmapMatchList_spec_witness :
    ((fmapMatchList ["movies_01", "movies_02"]
        ["a_task-movies_run-01_bold", "a_task-movies_run-02_bold"]).isOk = true ↔
      ∀ k ∈ ["movies_01", "movies_02"],
        (keyMatches k
          ["a_task-movies_run-01_bold", "a_task-movies_run-02_bold"]).length ≤ 1)
    ∧ ((∀ k ∈ ["movies_01", "movies_02"],
        (keyMatches k
          ["a_task-movies_run-01_bold", "a_task-movies_run-02_bold"]).length ≤ 1) →
        fmapMatchList ["movies_01", "movies_02"]
            ["a_task-movies_run-01_bold", "a_task-movies_run-02_bold"]
          = Except.ok
            (["movies_01", "movies_02"].filterMap (fun k =>
              (keyMatches k
                ["a_task-movies_run-01_bold", "a_task-movies_run-02_bold"]).head?))) :=
  fmapMatchList_spec ["movies_01", "movies_02"]
    ["a_task-movies_run-01_bold", "a_task-movies_run-02_bold"] (by decide)

/-! Helper lemmas for the dict model. -/

theorem dictSet_eq_map (d : List (String × List String)) (k : String)
    (v : List String) (ha : d.any (fun p => p.1 == k) = true) :
    dictSet d k v
      = d.map (fun p => if p.1 == k then (k, v) else p) := by
  simp [dictSet, ha]

theorem dictSet_eq_append (d : List (String × List String)) (k : String)
    (v : List String) (ha : d.any (fun p => p.1 == k) = false) :
    dictSet d k v = d ++ [(k, v)] := by
  simp [dictSet, ha]

theorem dictSet_idem (d : List (String × List String)) (k : String)
    (v : List String) : dictSet (dictSet d k v) k v = dictSet d k v := by
  by_cases ha : d.any (fun p => p.1 == k) = true
  · rw [dictSet_eq_map d k v ha]
    have hany2 : (d.map (fun p => if p.1 == k then (k, v) else p)).any
        (fun p => p.1 == k) = true := by
      rw [List.any_eq_true] at ha ⊢
      obtain ⟨p, hp, hpk⟩ := ha
      exact ⟨(k, v), List.mem_map.mpr ⟨p, hp, by simp [hpk]⟩, by simp⟩
    rw [dictSet_eq_map _ k v hany2, List.map_map]
    refine List.map_congr_left (fun p _ => ?_)
    show (if (if p.1 == k then ((k, v) : String × List String) else p).1 == k
        then ((k, v) : String × List String)
        else if p.1 == k then ((k, v) : String × List String) else p)
      = if p.1 == k then (k, v) else p
    by_cases hp : (p.1 == k) = true
    · rw [if_pos hp]
      have hkk : ((((k, v) : String × List String)).1 == k) = true := by
        simp
      rw [if_pos hkk]
    · rw [if_neg hp, if_neg hp]
  · have ha' : d.any (fun p => p.1 == k) = false :=
      Bool.eq_false_iff.mpr ha
    have hnk : ∀ p ∈ d, (p.1 == k) = false := by
      intro p hp
      cases hpk : (p.1 == k) with
      | false => rfl
      | true => exact absurd (List.any_eq_true.mpr ⟨p, hp, hpk⟩) ha
    rw [dictSet_eq_append d k v ha']
    have hany2 : ((d ++ [(k, v)]).any (fun p => p.1 == k)) = true := by
      rw [List.any_eq_true]
      exact ⟨(k, v), List.mem_append_right d (List.mem_singleton_self _),
        by simp⟩
    rw [dictSet_eq_map _ k v hany2, List.map_append]
    congr 1
    · calc d.map (fun p => if p.1 == k then ((k, v) : String × List String)
            else p)
          = d.map id := List.map_congr_left (fun p hp => by
            simp [hnk p hp])
        _ = d := List.map_id d
    · simp

theorem lookup_map_set (d : List (String × List String)) (k : String)
    (v : List String) (ha : d.any (fun p => p.1 == k) = true) :
    (d.map (fun p => if p.1 == k then (k, v) else p)).lookup k = some v := by
  induction d with
  | nil => simp at ha
  | cons p ps ih =>
    obtain ⟨pk, pv⟩ := p
    by_cases hpk : (pk == k) = true
    · rw [List.map_cons]
      show List.lookup k ((if (pk, pv).1 == k then ((k, v) : String × List String)
        else (pk, pv)) :: _) = some v
      rw [if_pos hpk]
      exact List.lookup_cons_self
    · have hk : (k == pk) = false := by
        rw [beq_eq_false_iff_ne]
        intro hc
        exact hpk (beq_iff_eq.mpr hc.symm)
      have haps : ps.any (fun p => p.1 == k) = true := by
        rcases List.any_eq_true.mp ha with ⟨q, hq, hqk⟩
        rcases List.mem_cons.mp hq with rfl | hqmem
        · exact absurd hqk hpk
        · exact List.any_eq_true.mpr ⟨q, hqmem, hqk⟩
      rw [List.map_cons]
      show List.lookup k ((if (pk, pv).1 == k then ((k, v) : String × List String)
        else (pk, pv)) :: _) = some v
      rw [if_neg hpk, List.lookup_cons, hk]
      exact ih haps

theorem lookup_append_one (d : List (String × List String)) (k : String)
    (v : List String) (ha : ∀ p ∈ d, (p.1 == k) = false) :
    (d ++ [(k, v)]).lookup k = some v := by
  induction d with
  | nil => exact List.lookup_cons_self
  | cons p ps ih =>
    obtain ⟨pk, pv⟩ := p
    have hpk := ha (pk, pv) (List.mem_cons_self _ _)
    have hk : (k == pk) = false := by
      rw [beq_eq_false_iff_ne]
      intro hc
      rw [beq_eq_false_iff_ne] at hpk
      exact hpk hc.symm
    rw [List.cons_append, List.lookup_cons, hk]
    exact ih (fun q hq => ha q (List.mem_cons_of_mem _ hq))

theorem lookup_dictSet (d : List (String × List String)) (k : String)
    (v : List String) : (dictSet d k v).lookup k = some v := by
  by_cases ha : d.any (fun p => p.1 == k) = true
  · rw [dictSet_eq_map d k v ha]
    exact lookup_map_set d k v ha
  · have ha' : d.any (fun p => p.1 == k) = false :=
      Bool.eq_false_iff.mpr ha
    have hnk : ∀ p ∈ d, (p.1 == k) = false := by
      intro p hp
      cases hpk : (p.1 == k) with
      | false => rfl
      | true => exact absurd (List.any_eq_true.mpr ⟨p, hp, hpk⟩) ha
    rw [dictSet_eq_append d k v ha']
    exact lookup_append_one d k v hnk

/-- C7 counterexample.  `wash_issue` is not a pure transform of its
argument: for subject ER0009 in ses-day2 with task-movies it assigns
into the dict it received (unique_cases.py line 76) and returns that
same object, so after the call the caller's trial-types mapping — here
modelled by `wash_issue_post` — differs from the mapping that was
passed in. -/
theorem wash_issue_mutates :
    wash_issue_post [("wash", ["WashStimOnset", "WashStimOffset"])]
        "task-movies" "ses-day2" "ER0009"
      ≠ [("wash", ["WashStimOnset", "WashStimOffset"])] := by
  decide

/-- C7 amended.  Running the patch twice on identical input yields
identical output — a second application of `wash_issue` to the mapping
it returned gives that mapping back unchanged — but the patch is not
mutation-free: the caller's mapping after the call equals the RETURNED
mapping (`wash_issue_post`), the argument having been updated in
place, not necessarily the mapping originally passed in. -/
theorem wash_issue_idem (tt : List (String × List String))
    (task sess subid : String) (m : List (String × List String))
    (h : wash_issue tt task sess subid = Except.ok m) :
    wash_issue m task sess subid = Except.ok m
      ∧ wash_issue_post tt task sess subid = m := by
  refine ⟨?_, by simp [wash_issue_post, h]⟩
  by_cases hc1 : sess = "ses-day3" ∧ subid ∈ half_issue
  · rw [wash_issue, if_pos hc1] at h
    injection h with hm
    subst hm
    rw [wash_issue, if_pos hc1]
  · rw [wash_issue, if_neg hc1] at h
    by_cases hc2 : subid ∈ issue_list
    · rw [if_pos hc2] at h
      cases hl : wash_update.lookup task with
      | none => rw [hl] at h; exact absurd h (by simp)
      | some v =>
        rw [hl] at h
        injection h with hm
        subst hm
        rw [wash_issue, if_neg hc1, if_pos hc2, hl]
        show Except.ok (dictSet (dictSet tt "wash" v) "wash" v)
          = Except.ok (dictSet tt "wash" v)
        rw [dictSet_idem]
    · rw [if_neg hc2] at h
      injection h with hm
      subst hm
      rw [wash_issue, if_neg hc1, if_neg hc2]

/-- C7 witness: for ER0009 / ses-day2 / task-movies the patched mapping
is a fixed point of the patch, and the caller's dict after the call is
the patched mapping. -/
theorem wash_issue_idem_witness :
    wash_issue [("wash", ["WashStimOnset", "movieblockEnd"])]
        "task-movies" "ses-day2" "ER0009"
      = Except.ok [("wash", ["WashStimOnset", "movieblockEnd"])]
      ∧ wash_issue_post [("wash", ["WashStimOnset", "WashStimOffset"])]
          "task-movies" "ses-day2" "ER0009"
        = [("wash", ["WashStimOnset", "movieblockEnd"])] :=
  wash_issue_idem [("wash", ["WashStimOnset", "WashStimOffset"])]
    "task-movies" "ses-day2" "ER0009"
    [("wash", ["WashStimOnset", "movieblockEnd"])] (by decide)

/-- C8.  For every trial-types mapping: the patch for subject ER0009,
session ses-day2, task task-movies returns a mapping whose wash entry
is ["WashStimOnset", "movieblockEnd"] — offset marker "movieblockEnd"
— and the patch for subject ER0046 in session ses-day3 (the half-patch
exemption) returns the mapping unchanged, for any task. -/
theorem wash_issue_patch_table (tt : List (String × List String))
    (task : String) :
    (∃ m, wash_issue tt "task-movies" "ses-day2" "ER0009" = Except.ok m
        ∧ m.lookup "wash" = some ["WashStimOnset", "movieblockEnd"])
      ∧ wash_issue tt task "ses-day3" "ER0046" = Except.ok tt := by
  constructor
  · refine ⟨dictSet tt "wash" ["WashStimOnset", "movieblockEnd"], ?_,
      lookup_dictSet tt "wash" ["WashStimOnset", "movieblockEnd"]⟩
    have h1 : ¬("ses-day2" = "ses-day3" ∧ "ER0009" ∈ half_issue) := by
      decide
    have h2 : "ER0009" ∈ issue_list := by decide
    rw [wash_issue, if_neg h1, if_pos h2]
    rfl
  · have h1 : ("ses-day3" = "ses-day3" ∧ "ER0046" ∈ half_issue) := by decide
    rw [wash_issue, if_pos h1]

/-- C5.  Judge-response decoding (`_judge_resp`) is total — it never
raises — and for each JudgeResponse row, positionally: a missing
`stimtype` cell (pandas NaN; empty CSV fields and the na_values become
NaN on read) yields missing response AND missing accuracy, while a
present string yields its first character (`h[:1]`) as the response
and the remainder (`h[1:]`) as the accuracy marker. -/
theorem judge_resp_decode (df_run : List RunRow) :
    judge_resp df_run
      = ((judgeRows df_run).map (fun r =>
            match r.stimtype with
            | none => Cell.na
            | some v => Cell.s (String.mk (v.toList.take 1))),
          (judgeRows df_run).map (fun r =>
            match r.stimtype with
            | none => Cell.na
            | some v => Cell.s (String.mk (v.toList.drop 1)))) := by
  have key : ∀ l : List (Option String),
      judgeDecode l
        = (l.map (fun h =>
              match h with
              | none => Cell.na
              | some v => Cell.s (String.mk (v.toList.take 1))),
            l.map (fun h =>
              match h with
              | none => Cell.na
              | some v => Cell.s (String.mk (v.toList.drop 1)))) := by
    intro l
    induction l with
    | nil => rfl
    | cons h t ih =>
      cases h with
      | none => simp [judgeDecode, ih]
      | some v => simp [judgeDecode, ih]
  rw [judge_resp, key, List.map_map, List.map_map]
  rfl

/-- Helper: a key absent from an association list is not found. -/
theorem lookup_eq_none_of_not_key {β : Type} (l : List (String × β))
    (a : String) (h : ∀ p ∈ l, p.1 ≠ a) : l.lookup a = none := by
  induction l with
  | nil => rfl
  | cons p t ih =>
    have hpa : (a == p.1) = false := by
      rw [beq_eq_false_iff_ne]
      exact fun hc => h p (List.mem_cons_self p t) hc.symm
    obtain ⟨k, b⟩ := p
    simp only [List.lookup, hpa]
    exact ih (fun q hq => h q (List.mem_cons_of_mem _ hq))

/-- C9.  A raw dcm2niix series name matching no key of the naming
table makes `_switch_name` raise `KeyError` — a subclass of
`LookupError` — and the call site in the `bids_nii` per-file loop has
no handler, so the error propagates out of the rename step rather
than being swallowed. -/
theorem switch_name_unknown (subj sess task : String) (run : Option String)
    (dcm2niix_name file_ext : String)
    (h : ∀ p ∈ switchTable subj sess task run, p.1 ≠ dcm2niix_name) :
    switch_name subj sess task run dcm2niix_name
        = Except.error (PyErr.keyError dcm2niix_name)
      ∧ bidsNiiRename subj sess task run dcm2niix_name file_ext
        = Except.error (PyErr.keyError dcm2niix_name)
      ∧ (PyErr.keyError dcm2niix_name).isLookupError = true := by
  have hsw : switch_name subj sess task run dcm2niix_name
      = Except.error (PyErr.keyError dcm2niix_name) := by
    rw [switch_name, lookup_eq_none_of_not_key _ _ h]
  exact ⟨hsw, by rw [bidsNiiRename, hsw], rfl⟩

/-- C9 witness: the unrecognized series name "DICOM_bogus" raises a
propagating `KeyError` for a concrete subject/session/task. -/
theorem switch_name_unknown_witness :
    switch_name "sub-1" "ses-day2" "task-movies" none "DICOM_bogus"
        = Except.error (PyErr.keyError "DICOM_bogus")
      ∧ bidsNiiRename "sub-1" "ses-day2" "task-movies" none "DICOM_bogus"
          ".nii.gz"
        = Except.error (PyErr.keyError "DICOM_bogus")
      ∧ (PyErr.keyError "DICOM_bogus").isLookupError = true :=
  switch_name_unknown "sub-1" "ses-day2" "task-movies" none "DICOM_bogus"
    ".nii.gz" (by decide)

/-- C6 counterexample.  A failure of the copy step — not a decode
failure of the signal container — is also caught by the handler
around the physio conversion block (a bare `except:` at emorep.py
line 559): `make_physio` returns `None` (the file is skipped) instead
of letting the exception propagate. -/
theorem physio_swallows_copy_failure :
    physioTryBlock (Except.ok ()) (Except.ok ())
        (Except.error "PermissionError") (Except.ok ())
        "sub-1_physio.acq" = none :=
  rfl

/-- C6 amended.  The handler around the physio conversion block is a
bare `except:`: the block returns the destination path exactly when
the decode, TSV write, copy, and rename ALL succeed, and ANY failure
among them — not only a decode failure — is caught, making the
function skip the file (return `None`); no failure propagates from
this block. -/
theorem physioTryBlock_spec (decode writeTxt copyStep renameStep :
    Except String Unit) (dest_acq : String) :
    (physioTryBlock decode writeTxt copyStep renameStep dest_acq
        = some dest_acq
      ↔ decode.isOk = true ∧ writeTxt.isOk = true ∧ copyStep.isOk = true
          ∧ renameStep.isOk = true)
    ∧ (physioTryBlock decode writeTxt copyStep renameStep dest_acq = none
      ↔ decode.isOk = false ∨ writeTxt.isOk = false
          ∨ copyStep.isOk = false ∨ renameStep.isOk = false) := by
  cases decode <;> cases writeTxt <;> cases copyStep <;> cases renameStep <;>
    simp [physioTryBlock, Except.isOk, Except.toBool]

/-! Helper lemmas for the events and rest-ratings proofs. -/

theorem isOk_exists {ε α : Type} (e : Except ε α) (h : e.isOk = true) :
    ∃ a, e = Except.ok a := by
  cases e with
  | error x => simp [Except.isOk, Except.toBool] at h
  | ok a => exact ⟨a, rfl⟩

theorem mkRecords_ok_length (onset dur : List ℚ) (ttype : List String)
    (stim resp rtime acc emo : List Cell) (recs : List TrialRecord)
    (h : mkRecords onset dur ttype stim resp rtime acc emo = Except.ok recs) :
    recs.length = onset.length := by
  simp only [mkRecords] at h
  split at h
  · injection h with h2
    subst h2
    simp
  · exact absurd h (by simp)

/-- C4 counterexample.  The judge trial type with one JudgeOnset row,
one JudgeOffset row (N = 1), and TWO JudgeResponse rows does not
produce one trial record: the response column has length 2 while the
onset column has length 1, so the dataframe construction raises
(pandas `ValueError`) and extraction fails. -/
theorem get_info_judge_mismatch_fails :
    (get_info
        [⟨"JudgeOnset", 1, none, none⟩, ⟨"JudgeOffset", 2, none, none⟩,
          ⟨"JudgeResponse", 3, some "1", some "1c"⟩,
          ⟨"JudgeResponse", 4, some "2", some "2w"⟩]
        [] "judge" "JudgeOnset" "JudgeOffset").isOk = false := by
  decide

/-- C4 amended.  For a trial type with N onset-marker rows and N
offset-marker rows, WHENEVER extraction succeeds (it can fail, e.g.
when the judge type's JudgeResponse count differs from N) `get_info`
appends exactly N trial records to the accumulated table, and the
resulting table is sorted by onset non-decreasing — with a contiguous
0-based index, which in this list model is the position. -/
theorem get_info_count_sorted (df_run : List RunRow)
    (df_events : List TrialRecord) (event_name event_on event_off : String)
    (N : ℕ)
    (h_on : (df_run.filter (fun r => r.rtype == event_on)).length = N)
    (h_off : (df_run.filter (fun r => r.rtype == event_off)).length = N)
    (h_ok : (get_info df_run df_events event_name event_on event_off).isOk
      = true) :
    ∃ out, get_info df_run df_events event_name event_on event_off
        = Except.ok out
      ∧ out.length = df_events.length + N
      ∧ List.Sorted recLe out := by
  obtain ⟨out, hout⟩ := isOk_exists _ h_ok
  refine ⟨out, hout, ?_⟩
  simp only [get_info] at hout
  split at hout
  · exact absurd hout (by simp)
  · split at hout
    · exact absurd hout (by simp)
    · split at hout
      · exact absurd hout (by simp)
      · rename_i recs hrec
        injection hout with hout2
        subst hout2
        constructor
        · rw [List.length_insertionSort, List.length_append]
          congr 1
          rw [mkRecords_ok_length _ _ _ _ _ _ _ _ _ hrec]
          simp only [List.length_map]
          exact h_on
        · exact List.sorted_insertionSort recLe _

/-- C4 witness: a log with one IsiOnset and one IsiOffset row yields a
one-record, onset-sorted events table for the fix trial type. -/
theorem get_info_count_sorted_witness :
    ∃ out, get_info [⟨"IsiOnset", 1, none, none⟩, ⟨"IsiOffset", 2, none, none⟩]
        [] "fix" "IsiOnset" "IsiOffset" = Except.ok out
      ∧ out.length = ([] : List TrialRecord).length + 1
      ∧ List.Sorted recLe out :=
  get_info_count_sorted
    [⟨"IsiOnset", 1, none, none⟩, ⟨"IsiOffset", 2, none, none⟩] []
    "fix" "IsiOnset" "IsiOffset" 1 (by decide) (by decide) (by decide)

theorem getD_map_lt {α β : Type} (f : α → β) (l : List α) (i : ℕ) (d : β)
    (h : i < l.length) :
    (l.map f).getD i d = f (l.get ⟨i, h⟩) := by
  rw [List.getD_eq_getElem?_getD, List.getElem?_map,
    List.getElem?_eq_getElem h]
  rfl

theorem optionMapM_getD {α β : Type} (f : α → Option β) (l : List α) (d : β)
    (h : ∀ x ∈ l, (f x).isSome = true) :
    l.mapM f = some (l.map (fun x => (f x).getD d)) := by
  induction l with
  | nil => rfl
  | cons x t ih =>
    obtain ⟨y, hy⟩ := Option.isSome_iff_exists.mp
      (h x (List.mem_cons_self x t))
    rw [List.mapM_cons, ih (fun z hz => h z (List.mem_cons_of_mem x hz))]
    simp [hy]

theorem getD_lt {α : Type} (l : List α) (i : ℕ) (d : α) (h : i < l.length) :
    l.getD i d = l.get ⟨i, h⟩ := by
  rw [List.getD_eq_getElem?_getD, List.getElem?_eq_getElem h]
  rfl

/-- C10.  In `rest_ratings`, provided the log pairs its RatingOnset
and RatingResponse rows (equal column lengths) and every response
value after the missing-to-"88" replacement is a key of the rating
map (every PRESENT value a key; "88" always is one), extraction
succeeds — a missing response never raises — the output is sorted by
prompt ascending, has one row per prompt, and every RatingResponse
row whose response value is missing (pandas NaN) is written with
integer response "88" and alpha response "NR". -/
theorem rest_ratings_missing_nr (df_rate : List RunRow)
    (hlen : (restStim df_rate).length = (restResp df_rate).length)
    (hcov : ∀ x ∈ restResp df_rate, (rate_map.lookup x).isSome = true) :
    ∃ out, rest_ratings df_rate = Except.ok out
      ∧ List.Sorted promptLe out
      ∧ out.length = (restStim df_rate).length
      ∧ ∀ i (hi : i < (restRespRaw df_rate).length),
          (restRespRaw df_rate).get ⟨i, hi⟩ = none →
          ({ prompt := (restStim df_rate).getD i none
             resp_int := "88"
             resp_alpha := "NR" } : RestRow) ∈ out := by
  have hmapm := optionMapM_getD (fun x => rate_map.lookup x)
    (restResp df_rate) "" hcov
  refine ⟨List.insertionSort promptLe
      ((List.range (restStim df_rate).length).map (fun i =>
        { prompt := (restStim df_rate).getD i none
          resp_int := (restResp df_rate).getD i ""
          resp_alpha := ((restResp df_rate).map
            (fun x => (rate_map.lookup x).getD "")).getD i "" })),
    ?_, ?_, ?_, ?_⟩
  · simp only [rest_ratings]
    rw [hmapm]
    show (if (restStim df_rate).length = (restResp df_rate).length
        then _ else _) = _
    rw [if_pos hlen]
  · exact List.sorted_insertionSort promptLe _
  · rw [List.length_insertionSort, List.length_map, List.length_range]
  · intro i hi hnone
    have hiResp : i < (restResp df_rate).length := by
      simpa [restResp] using hi
    have hiStim : i < (restStim df_rate).length := by
      rw [hlen]; exact hiResp
    rw [List.mem_insertionSort, List.mem_map]
    refine ⟨i, List.mem_range.mpr hiStim, ?_⟩
    have h88 : (restResp df_rate).getD i "" = "88" := by
      show ((restRespRaw df_rate).map (fun x =>
        match x with
        | none => "88"
        | some v => v)).getD i "" = "88"
      rw [getD_map_lt _ (restRespRaw df_rate) i "" hi, hnone]
    have hNR : ((restResp df_rate).map
        (fun x => (rate_map.lookup x).getD "")).getD i "" = "NR" := by
      rw [getD_map_lt _ (restResp df_rate) i "" hiResp]
      have hget : (restResp df_rate).get ⟨i, hiResp⟩ = "88" := by
        rw [← getD_lt (restResp df_rate) i "" hiResp]
        exact h88
      rw [hget]
      rfl
    show ({ prompt := (restStim df_rate).getD i none
            resp_int := (restResp df_rate).getD i ""
            resp_alpha := ((restResp df_rate).map
              (fun x => (rate_map.lookup x).getD "")).getD i "" } : RestRow)
      = _
    rw [h88, hNR]

/-- C10 witness: a two-prompt log whose second response is missing
yields a prompt-sorted table in which the missing response appears as
"88" / "NR". -/
theorem rest_ratings_missing_nr_witness :
    ∃ out, rest_ratings
        [⟨"RatingOnset", 1, some "AMUSED", none⟩,
          ⟨"RatingResponse", 2, none, some "3"⟩,
          ⟨"RatingOnset", 3, some "CALM", none⟩,
          ⟨"RatingResponse", 4, none, none⟩] = Except.ok out
      ∧ List.Sorted promptLe out
      ∧ out.length = (restStim
          [⟨"RatingOnset", 1, some "AMUSED", none⟩,
            ⟨"RatingResponse", 2, none, some "3"⟩,
            ⟨"RatingOnset", 3, some "CALM", none⟩,
            ⟨"RatingResponse", 4, none, none⟩]).length
      ∧ ∀ i (hi : i < (restRespRaw
          [⟨"RatingOnset", 1, some "AMUSED", none⟩,
            ⟨"RatingResponse", 2, none, some "3"⟩,
            ⟨"RatingOnset", 3, some "CALM", none⟩,
            ⟨"RatingResponse", 4, none, none⟩]).length),
          (restRespRaw
            [⟨"RatingOnset", 1, some "AMUSED", none⟩,
              ⟨"RatingResponse", 2, none, some "3"⟩,
              ⟨"RatingOnset", 3, some "CALM", none⟩,
              ⟨"RatingResponse", 4, none, none⟩]).get ⟨i, hi⟩ = none →
          ({ prompt := (restStim
              [⟨"RatingOnset", 1, some "AMUSED", none⟩,
                ⟨"RatingResponse", 2, none, some "3"⟩,
                ⟨"RatingOnset", 3, some "CALM", none⟩,
                ⟨"RatingResponse", 4, none, none⟩]).getD i none
             resp_int := "88"
             resp_alpha := "NR" } : RestRow) ∈ out :=
  rest_ratings_missing_nr
    [⟨"RatingOnset", 1, some "AMUSED", none⟩,
      ⟨"RatingResponse", 2, none, some "3"⟩,
      ⟨"RatingOnset", 3, some "CALM", none⟩,
      ⟨"RatingResponse", 4, none, none⟩] (by decide) (by decide)

end BuildRawdata
